import Mathlib

/-!
Shallow embedding of the `TradingAgentRegistry` Solidity contract
(ENS-named trading agents with Pyth price-triggered automation) and
verification of the specification's claims about it.

Modelling conventions:
* `bytes32` and `address` values are modelled as `Nat` (only equality with
  zero / with each other is ever used by the contract).
* `uint256` arithmetic is modelled on `Nat`; the only place the contract can
  hit a checked-arithmetic overflow on realistic values is the
  `10 ** e` / multiplication in price conversion, which is modelled
  explicitly (`none` = revert).
* A reverting call is an `Except.error`: in the EVM a revert rolls the whole
  transaction back, so an error result carries no post-state and the caller
  keeps the unchanged pre-state.
* External collaborators (Pyth, ENS) are parameters: the oracle is a
  function from feed id to an optional `PythPrice` (`none` = the oracle call
  itself reverts), the two keccak256 hashes used to derive the ENS node are
  supplied abstractly in the call environment (their values never influence
  the properties proved here), and `ens.setSubnodeRecord` mutates only the
  external ENS registry, not this contract's storage.
-/

namespace Registry

/-- Pyth price struct (`PythStructs.Price`): `int64` mantissa, `uint64`
confidence, `int32` exponent, `uint256` publish time. -/
structure PythPrice where
  price : Int
  conf : Nat
  expo : Int
  publishTime : Nat
deriving Repr, DecidableEq

/-- The `TradingStrategy` struct of the contract, field for field. -/
structure TradingStrategy where
  priceFeedId : Nat
  triggerPrice : Nat
  triggerAbove : Bool
  tokenIn : Nat
  tokenOut : Nat
  amountIn : Nat
  isActive : Bool
  lastExecuted : Nat
  cooldownPeriod : Nat
deriving Repr, DecidableEq

/-- The `Agent` struct of the contract. `existsFlag` models the source field
named `exists` (a Lean keyword). -/
structure Agent where
  owner : Nat
  ensNode : Nat
  ensName : String
  strategy : TradingStrategy
  createdAt : Nat
  existsFlag : Bool
deriving Repr, DecidableEq

/-- Contract storage: the immutable `baseNode` plus the three mappings and
the counter. Solidity mappings are total with zero-initialised defaults, so
they are modelled as total functions. -/
structure RegistryState where
  baseNode : Nat
  agents : Nat → Agent
  userAgents : Nat → List Nat
  ensNodeToAgentId : Nat → Nat
  agentCount : Nat

/-- Call environment: `msg.sender`, `block.timestamp`, and the two keccak256
hashes used to derive the ENS subname node, kept abstract. -/
structure Env where
  sender : Nat
  timestamp : Nat
  keccakLabel : String → Nat
  keccakNode : Nat → Nat → Nat

/-- Revert reasons of the contract. `AgentAlreadyExists` models
`revert("Agent already exists")`, `StrategyNotActive` models
`revert("Strategy not active")`, `OracleRevert` a revert inside the external
Pyth call, and `Overflow` a checked-arithmetic panic in the price
conversion. -/
inductive RegistryError where
  | AgentAlreadyExists
  | AgentNotFound
  | Unauthorized
  | InvalidStrategy
  | PriceNotUpdated
  | CooldownNotExpired
  | TriggerNotMet
  | StrategyNotActive
  | OracleRevert
  | Overflow
deriving Repr, DecidableEq

/-- Unsigned reinterpretation `uint256(uint64(x))` of an `int64` value:
two's-complement reduction modulo `2 ^ 64`. -/
def toUint64 (x : Int) : Nat := (x % (2 ^ 64 : Int)).toNat

/-- Upper bound of `uint256` values; checked arithmetic reverts at it. -/
def UINT256_LIMIT : Nat := 2 ^ 256

/-- Price conversion, written identically in `checkAndExecuteTrigger` and
`checkTrigger`: `currentPrice = uint256(uint64(price.price))`, then
multiplied by `10 ** (-expo)` when `expo < 0` and integer-divided by
`10 ** expo` otherwise. `none` models the checked-arithmetic revert when
`10 ** e` or the product does not fit in `uint256`. -/
def normalizePrice (mantissa expo : Int) : Option Nat :=
  let base := toUint64 mantissa
  if expo < 0 then
    let p := 10 ^ (-expo).toNat
    if p < UINT256_LIMIT then
      if base * p < UINT256_LIMIT then some (base * p) else none
    else none
  else
    let p := 10 ^ expo.toNat
    if p < UINT256_LIMIT then some (base / p) else none

/-- Trigger-condition test, written identically in both trigger functions:
`triggerAbove ? currentPrice >= triggerPrice : currentPrice <= triggerPrice`. -/
def triggerMet (s : TradingStrategy) (currentPrice : Nat) : Bool :=
  if s.triggerAbove then decide (currentPrice ≥ s.triggerPrice)
  else decide (currentPrice ≤ s.triggerPrice)

/-- The contract's `_isValidStrategy`: non-zero feed id, positive trigger
price, non-zero token addresses. Note that it inspects neither `isActive`
nor `lastExecuted`. -/
def isValidStrategy (s : TradingStrategy) : Bool :=
  decide (s.priceFeedId ≠ 0) && decide (s.triggerPrice > 0) &&
  decide (s.tokenIn ≠ 0) && decide (s.tokenOut ≠ 0)

/-- The contract's `createAgent`. The external `ens.setSubnodeRecord` call
touches only the external ENS registry and is therefore not part of the
state transition. Returns the computed `ensNode` plus the post-state. -/
def createAgent (env : Env) (st : RegistryState) (agentId : Nat)
    (ensLabel : String) (strategy : TradingStrategy) :
    Except RegistryError (Nat × RegistryState) :=
  if (st.agents agentId).existsFlag then .error .AgentAlreadyExists
  else if !(isValidStrategy strategy) then .error .InvalidStrategy
  else
    let label := env.keccakLabel ensLabel
    let ensNode := env.keccakNode st.baseNode label
    let agent : Agent :=
      { owner := env.sender
        ensNode := ensNode
        ensName := ensLabel ++ ".yourdomain.eth"
        strategy := strategy
        createdAt := env.timestamp
        existsFlag := true }
    .ok (ensNode,
      { st with
        agents := fun i => if i = agentId then agent else st.agents i
        userAgents := fun u =>
          if u = env.sender then st.userAgents u ++ [agentId]
          else st.userAgents u
        ensNodeToAgentId := fun n =>
          if n = ensNode then agentId else st.ensNodeToAgentId n
        agentCount := st.agentCount + 1 })

/-- The contract's `updateStrategy`: owner-only whole-value replacement of
the strategy struct, including its `isActive` and `lastExecuted` fields. -/
def updateStrategy (env : Env) (st : RegistryState) (agentId : Nat)
    (newStrategy : TradingStrategy) : Except RegistryError RegistryState :=
  let agent := st.agents agentId
  if !agent.existsFlag then .error .AgentNotFound
  else if agent.owner ≠ env.sender then .error .Unauthorized
  else if !(isValidStrategy newStrategy) then .error .InvalidStrategy
  else
    .ok { st with
      agents := fun i =>
        if i = agentId then { agent with strategy := newStrategy }
        else st.agents i }

/-- The contract's `checkAndExecuteTrigger`. The `updateData` argument only
forwards an update to the external Pyth contract; its effect is absorbed
into the supplied oracle function `pythNoOlderThan` (the result of
`pyth.getPriceNoOlderThan(feedId, 300)` after any such update). -/
def checkAndExecuteTrigger (env : Env) (st : RegistryState) (agentId : Nat)
    (pythNoOlderThan : Nat → Option PythPrice) :
    Except RegistryError RegistryState :=
  let agent := st.agents agentId
  if !agent.existsFlag then .error .AgentNotFound
  else if !agent.strategy.isActive then .error .StrategyNotActive
  else
    match pythNoOlderThan agent.strategy.priceFeedId with
    | none => .error .OracleRevert
    | some price =>
      if price.publishTime = 0 then .error .PriceNotUpdated
      else if env.timestamp <
          agent.strategy.lastExecuted + agent.strategy.cooldownPeriod then
        .error .CooldownNotExpired
      else
        match normalizePrice price.price price.expo with
        | none => .error .Overflow
        | some currentPrice =>
          if !(triggerMet agent.strategy currentPrice) then
            .error .TriggerNotMet
          else
            .ok { st with
              agents := fun i =>
                if i = agentId then
                  { agent with strategy :=
                      { agent.strategy with lastExecuted := env.timestamp } }
                else st.agents i }

/-- The contract's `deactivateAgent`: owner-only one-way flip of
`strategy.isActive` to `false`. -/
def deactivateAgent (env : Env) (st : RegistryState) (agentId : Nat) :
    Except RegistryError RegistryState :=
  let agent := st.agents agentId
  if !agent.existsFlag then .error .AgentNotFound
  else if agent.owner ≠ env.sender then .error .Unauthorized
  else
    .ok { st with
      agents := fun i =>
        if i = agentId then
          { agent with strategy := { agent.strategy with isActive := false } }
        else st.agents i }

/-- The contract's `getAgent` view function. -/
def getAgent (st : RegistryState) (agentId : Nat) :
    Except RegistryError Agent :=
  if !(st.agents agentId).existsFlag then .error .AgentNotFound
  else .ok (st.agents agentId)

/-- The contract's `getUserAgents` view function. -/
def getUserAgents (st : RegistryState) (user : Nat) : List Nat :=
  st.userAgents user

/-- The contract's `checkTrigger` view function: existence check, plain
`pyth.getPrice` read (no staleness / publish-time gate), price conversion,
condition test. Being a view function it cannot mutate storage, which the
embedding reflects by returning no post-state. -/
def checkTrigger (st : RegistryState) (agentId : Nat)
    (pyth : Nat → Option PythPrice) : Except RegistryError (Bool × Nat) :=
  let agent := st.agents agentId
  if !agent.existsFlag then .error .AgentNotFound
  else
    match pyth agent.strategy.priceFeedId with
    | none => .error .OracleRevert
    | some price =>
      match normalizePrice price.price price.expo with
      | none => .error .Overflow
      | some priceValue => .ok (triggerMet agent.strategy priceValue, priceValue)

/-! Concrete fixtures used by witnesses and counterexamples. -/

/-- Zero-initialised agent record: the value a Solidity mapping returns for
an id that was never created (`existsFlag = false`). -/
def emptyAgent : Agent :=
  { owner := 0
    ensNode := 0
    ensName := ""
    strategy :=
      { priceFeedId := 0, triggerPrice := 0, triggerAbove := false,
        tokenIn := 0, tokenOut := 0, amountIn := 0, isActive := false,
        lastExecuted := 0, cooldownPeriod := 0 }
    createdAt := 0
    existsFlag := false }

/-- Empty store right after deployment with base node 0. -/
def st0 : RegistryState :=
  { baseNode := 0
    agents := fun _ => emptyAgent
    userAgents := fun _ => []
    ensNodeToAgentId := fun _ => 0
    agentCount := 0 }

/-- Valid active strategy: watch feed 5, trigger when the converted price
reaches 3000.00 at the 1e8 scale, cooldown one hour, last executed at 100. -/
def strategyA : TradingStrategy :=
  { priceFeedId := 5, triggerPrice := 300000000000, triggerAbove := true,
    tokenIn := 11, tokenOut := 12, amountIn := 0, isActive := true,
    lastExecuted := 100, cooldownPeriod := 3600 }

/-- Agent record owned by address 1 holding `strategyA`. -/
def agentA : Agent :=
  { owner := 1, ensNode := 9, ensName := "a" ++ ".yourdomain.eth",
    strategy := strategyA, createdAt := 0, existsFlag := true }

/-- Store holding exactly `agentA` under id 1. -/
def stA : RegistryState :=
  { baseNode := 0
    agents := fun i => if i = 1 then agentA else emptyAgent
    userAgents := fun _ => []
    ensNodeToAgentId := fun _ => 0
    agentCount := 1 }

/-- Call environment: sender is address 1 (the owner of `agentA`),
timestamp 1000, concrete hash functions. -/
def envA : Env :=
  { sender := 1, timestamp := 1000,
    keccakLabel := fun _ => 7, keccakNode := fun _ _ => 9 }

/-- Same caller at timestamp 5000 (past the cooldown of `agentA`). -/
def envC : Env :=
  { sender := 1, timestamp := 5000,
    keccakLabel := fun _ => 7, keccakNode := fun _ _ => 9 }

/-- Oracle answering every feed with mantissa 300000000001, exponent 0,
publish time 50: it converts to 300000000001, just above
`strategyA.triggerPrice`. -/
def pythGood : Nat → Option PythPrice :=
  fun _ => some { price := 300000000001, conf := 0, expo := 0, publishTime := 50 }

/-! Claim theorems. -/

/-- C3: what the code computes at the spec's two example inputs. The code
multiplies the mantissa by `10 ^ 8` when the exponent is `-8`, yielding
`1234567800000000` where the spec's example (and the code's own comment
that the result is at the 1e8 scale, shared with `triggerPrice`) expects
`12345678`; the second example `normalize(5, 2) = 0` does hold. -/
theorem C3_normalize_examples :
    normalizePrice 12345678 (-8) = some 1234567800000000 ∧
    normalizePrice 5 2 = some 0 := by
  constructor <;> rfl

/-- C4 (counterexample): for mantissa `-1` and exponent `0` the code does
not return the mantissa's absolute value (`1`); it reinterprets the `int64`
bit pattern as unsigned and returns `2 ^ 64 - 1`. -/
theorem C4_counterexample :
    normalizePrice (-1) 0 ≠ some (Int.natAbs (-1)) ∧
    normalizePrice (-1) 0 = some 18446744073709551615 := by
  constructor <;> decide

/-- C4 (amended): for every mantissa that is non-negative (and within the
`int64`/`uint64` range, where the unsigned reinterpretation is the
identity), price normalization returns the mantissa's absolute value
multiplied by `10 ^ (-exponent)` when `exponent < 0` and integer-divided
(truncating) by `10 ^ exponent` when `exponent ≥ 0`, provided the power and
the product fit in `uint256` (otherwise the call reverts); a negative
mantissa is instead reduced modulo `2 ^ 64` (two's complement), not taken
in absolute value. -/
theorem C4_normalize_formula (m e : Int) (hm0 : 0 ≤ m) (hm : m < 2 ^ 64) :
    (e < 0 → 10 ^ (-e).toNat < UINT256_LIMIT →
      m.natAbs * 10 ^ (-e).toNat < UINT256_LIMIT →
      normalizePrice m e = some (m.natAbs * 10 ^ (-e).toNat)) ∧
    (0 ≤ e → 10 ^ e.toNat < UINT256_LIMIT →
      normalizePrice m e = some (m.natAbs / 10 ^ e.toNat)) := by
  have hbase : toUint64 m = m.natAbs := by
    unfold toUint64
    rw [Int.emod_eq_of_lt hm0 hm]
    omega
  constructor
  · intro he hp hprod
    simp only [normalizePrice, hbase, if_pos he, if_pos hp, if_pos hprod]
  · intro he hp
    simp only [normalizePrice, hbase, if_neg (not_lt.mpr he), if_pos hp]

/-- C4 witness: the amended formula evaluated at mantissa 12345678,
exponent -8. -/
theorem C4_normalize_formula_witness :
    normalizePrice 12345678 (-8) =
      some (Int.natAbs 12345678 * 10 ^ (-(-8 : Int)).toNat) :=
  (C4_normalize_formula 12345678 (-8) (by decide) (by decide)).1
    (by decide) (by decide) (by decide)

/-- C9: `createAgent` with an id that is already present fails with the
"Agent already exists" revert; by the revert semantics of the embedding
(an error result carries no post-state) the existing record, the owner
index and the agent count are kept unchanged. -/
theorem C9_create_duplicate_fails (env : Env) (st : RegistryState)
    (agentId : Nat) (ensLabel : String) (s : TradingStrategy)
    (h : (st.agents agentId).existsFlag = true) :
    createAgent env st agentId ensLabel s = .error .AgentAlreadyExists := by
  simp [createAgent, h]

/-- C9 witness: duplicate creation of agent 1 in the store `stA`. -/
theorem C9_create_duplicate_fails_witness :
    (stA.agents 1).existsFlag = true ∧
    createAgent envA stA 1 "x" strategyA = .error .AgentAlreadyExists :=
  ⟨rfl, C9_create_duplicate_fails envA stA 1 "x" strategyA rfl⟩

/-- C8: on an existing agent, both mutation operations invoked by a caller
other than the owner fail with `Unauthorized`; by the revert semantics of
the embedding (an error result carries no post-state) the record and all
other store state are kept byte-for-byte unchanged. -/
theorem C8_nonowner_mutations_unauthorized (env : Env) (st : RegistryState)
    (agentId : Nat) (s : TradingStrategy)
    (hex : (st.agents agentId).existsFlag = true)
    (hown : (st.agents agentId).owner ≠ env.sender) :
    updateStrategy env st agentId s = .error .Unauthorized ∧
    deactivateAgent env st agentId = .error .Unauthorized := by
  constructor
  · simp [updateStrategy, hex, hown]
  · simp [deactivateAgent, hex, hown]

/-- C8 witness: caller 2 is not the owner (1) of agent 1 in `stA`. -/
theorem C8_nonowner_mutations_unauthorized_witness :
    (stA.agents 1).existsFlag = true ∧ (stA.agents 1).owner ≠ 2 ∧
    updateStrategy { envA with sender := 2 } stA 1 strategyA =
      .error .Unauthorized ∧
    deactivateAgent { envA with sender := 2 } stA 1 = .error .Unauthorized := by
  refine ⟨rfl, by decide, ?_⟩
  exact C8_nonowner_mutations_unauthorized { envA with sender := 2 } stA 1
    strategyA rfl (by decide)

/-- Valid strategy that is supplied with `isActive = false` and
`lastExecuted = 77`: `isValidStrategy` accepts it because it inspects
neither field. -/
def strategyInactive : TradingStrategy :=
  { priceFeedId := 5, triggerPrice := 300000000000, triggerAbove := true,
    tokenIn := 11, tokenOut := 12, amountIn := 0, isActive := false,
    lastExecuted := 77, cooldownPeriod := 3600 }

/-- C2 (counterexample): `strategyInactive` passes creation-time validation,
yet `createAgent` followed by `getAgent` returns it with `isActive = false`
and `lastExecuted = 77` — the claimed `is_active = true` / `last_executed = 0`
do not hold because the contract stores the supplied struct verbatim. -/
theorem C2_counterexample :
    isValidStrategy strategyInactive = true ∧
    ((createAgent envA st0 1 "a" strategyInactive).toOption.map
        (fun r => (getAgent r.2 1).toOption.map
          (fun a => (a.strategy.isActive, a.strategy.lastExecuted)))) =
      some (some (false, 77)) :=
  ⟨rfl, rfl⟩

/-- C2 (amended): for every strategy accepted by creation-time validation,
`createAgent` followed immediately by `getAgent` on the same id returns a
record whose strategy equals the supplied strategy verbatim — including
`isActive` and `lastExecuted`, which keep their supplied values and are not
forced to `true` / `0` — with the caller as owner, the call timestamp as
`createdAt`, and the existence flag set. -/
theorem C2_create_get_verbatim (env : Env) (st : RegistryState)
    (agentId : Nat) (ensLabel : String) (s : TradingStrategy)
    (n : Nat) (st' : RegistryState)
    (h : createAgent env st agentId ensLabel s = .ok (n, st')) :
    getAgent st' agentId =
      .ok { owner := env.sender
            ensNode := env.keccakNode st.baseNode (env.keccakLabel ensLabel)
            ensName := ensLabel ++ ".yourdomain.eth"
            strategy := s
            createdAt := env.timestamp
            existsFlag := true } := by
  unfold createAgent at h
  split at h
  · exact absurd h (by simp)
  split at h
  · exact absurd h (by simp)
  rw [Except.ok.injEq, Prod.mk.injEq] at h
  obtain ⟨-, rfl⟩ := h
  simp [getAgent]

/-- Store obtained by creating agent 1 with `strategyA` in the empty store
under the environment `envA`. -/
def stCreated : RegistryState :=
  { baseNode := 0
    agents := fun i =>
      if i = 1 then
        { owner := 1, ensNode := 9, ensName := "a" ++ ".yourdomain.eth",
          strategy := strategyA, createdAt := 1000, existsFlag := true }
      else st0.agents i
    userAgents := fun u =>
      if u = 1 then st0.userAgents u ++ [1] else st0.userAgents u
    ensNodeToAgentId := fun n => if n = 9 then 1 else st0.ensNodeToAgentId n
    agentCount := st0.agentCount + 1 }

/-- C2 witness: creation of agent 1 with `strategyA` and the subsequent
`getAgent` read. -/
theorem C2_create_get_verbatim_witness :
    createAgent envA st0 1 "a" strategyA = .ok (9, stCreated) ∧
    getAgent stCreated 1 =
      .ok { owner := 1, ensNode := 9, ensName := "a" ++ ".yourdomain.eth",
            strategy := strategyA, createdAt := 1000, existsFlag := true } :=
  ⟨rfl, C2_create_get_verbatim envA st0 1 "a" strategyA 9 stCreated rfl⟩

/-- C1 (counterexample): agent 1 of `stA` has `lastExecuted = 100`; after an
owner call of `updateStrategy` supplying a strategy whose `lastExecuted`
field is 0, the stored `lastExecuted` is 0 — `updateStrategy` replaced it,
moving it backwards, contradicting the claim that no operation other than a
successful trigger execution ever changes it. -/
theorem C1_counterexample :
    (stA.agents 1).strategy.lastExecuted = 100 ∧
    ((updateStrategy envA stA 1 { strategyA with lastExecuted := 0 }).toOption.map
        (fun st => (st.agents 1).strategy.lastExecuted)) = some 0 :=
  ⟨rfl, rfl⟩

/-- C1 (amended): `lastExecuted` advances forward on a successful trigger
execution (it becomes the call timestamp, which the cooldown gate forces to
be at least the previous value), and `deactivateAgent` leaves it unchanged;
however `updateStrategy` performs whole-value strategy replacement and sets
`lastExecuted` to the supplied strategy's field (which may reset it or move
it backwards), so it is not true that only trigger execution changes it. -/
theorem C1_last_executed_changes (env : Env) (st : RegistryState)
    (agentId : Nat) :
    (∀ pyth st', checkAndExecuteTrigger env st agentId pyth = .ok st' →
      (st'.agents agentId).strategy.lastExecuted = env.timestamp ∧
      (st.agents agentId).strategy.lastExecuted ≤ env.timestamp) ∧
    (∀ s st', updateStrategy env st agentId s = .ok st' →
      (st'.agents agentId).strategy.lastExecuted = s.lastExecuted) ∧
    (∀ st', deactivateAgent env st agentId = .ok st' →
      (st'.agents agentId).strategy.lastExecuted =
        (st.agents agentId).strategy.lastExecuted) := by
  refine ⟨fun pyth st' h => ?_, fun s st' h => ?_, fun st' h => ?_⟩
  · unfold checkAndExecuteTrigger at h
    dsimp only at h
    repeat' split at h
    all_goals try exact Except.noConfusion h
    rw [Except.ok.injEq] at h
    subst h
    exact ⟨by simp, by omega⟩
  · unfold updateStrategy at h
    dsimp only at h
    repeat' split at h
    all_goals try exact Except.noConfusion h
    rw [Except.ok.injEq] at h
    subst h
    simp
  · unfold deactivateAgent at h
    dsimp only at h
    repeat' split at h
    all_goals try exact Except.noConfusion h
    rw [Except.ok.injEq] at h
    subst h
    simp

/-- Store obtained from `stA` by a successful trigger execution on agent 1
at timestamp 5000. -/
def stAExec : RegistryState :=
  { stA with agents := fun i =>
      if i = 1 then { agentA with strategy := { strategyA with lastExecuted := 5000 } }
      else stA.agents i }

/-- C1 witness: the three conjuncts applied to concrete successful calls —
a trigger execution at timestamp 5000, an owner strategy replacement
supplying `lastExecuted = 0`, and a deactivation. -/
theorem C1_last_executed_changes_witness :
    ((stAExec.agents 1).strategy.lastExecuted = 5000 ∧
      (stA.agents 1).strategy.lastExecuted ≤ 5000) ∧
    ((({ stA with agents := fun i =>
          if i = 1 then { agentA with strategy := { strategyA with lastExecuted := 0 } }
          else stA.agents i } : RegistryState).agents 1).strategy.lastExecuted =
        ({ strategyA with lastExecuted := 0 } : TradingStrategy).lastExecuted) := by
  constructor
  · exact (C1_last_executed_changes envC stA 1).1 pythGood stAExec rfl
  · exact (C1_last_executed_changes envA stA 1).2.1
      { strategyA with lastExecuted := 0 } _ rfl

/-- C10: on every successful `checkAndExecuteTrigger` call the only stored
field that changes is the targeted agent's `strategy.lastExecuted`, set to
the call timestamp: the base node, the owner index, the ENS-node index, the
agent count, every other agent's record, and every other field of the
targeted agent (including all other strategy fields) are unchanged. -/
theorem C10_execute_frame (env : Env) (st : RegistryState) (agentId : Nat)
    (pyth : Nat → Option PythPrice) (st' : RegistryState)
    (h : checkAndExecuteTrigger env st agentId pyth = .ok st') :
    st'.baseNode = st.baseNode ∧
    st'.userAgents = st.userAgents ∧
    st'.ensNodeToAgentId = st.ensNodeToAgentId ∧
    st'.agentCount = st.agentCount ∧
    (∀ i, i ≠ agentId → st'.agents i = st.agents i) ∧
    (st'.agents agentId).owner = (st.agents agentId).owner ∧
    (st'.agents agentId).ensNode = (st.agents agentId).ensNode ∧
    (st'.agents agentId).ensName = (st.agents agentId).ensName ∧
    (st'.agents agentId).createdAt = (st.agents agentId).createdAt ∧
    (st'.agents agentId).existsFlag = (st.agents agentId).existsFlag ∧
    (st'.agents agentId).strategy.priceFeedId =
      (st.agents agentId).strategy.priceFeedId ∧
    (st'.agents agentId).strategy.triggerPrice =
      (st.agents agentId).strategy.triggerPrice ∧
    (st'.agents agentId).strategy.triggerAbove =
      (st.agents agentId).strategy.triggerAbove ∧
    (st'.agents agentId).strategy.tokenIn =
      (st.agents agentId).strategy.tokenIn ∧
    (st'.agents agentId).strategy.tokenOut =
      (st.agents agentId).strategy.tokenOut ∧
    (st'.agents agentId).strategy.amountIn =
      (st.agents agentId).strategy.amountIn ∧
    (st'.agents agentId).strategy.isActive =
      (st.agents agentId).strategy.isActive ∧
    (st'.agents agentId).strategy.cooldownPeriod =
      (st.agents agentId).strategy.cooldownPeriod ∧
    (st'.agents agentId).strategy.lastExecuted = env.timestamp := by
  unfold checkAndExecuteTrigger at h
  dsimp only at h
  repeat' split at h
  all_goals try exact Except.noConfusion h
  rw [Except.ok.injEq] at h
  subst h
  refine ⟨rfl, rfl, rfl, rfl, fun i hi => by simp [hi], ?_⟩
  simp

/-- C10 witness: the frame conditions at the concrete execution of agent 1
from `stA` at timestamp 5000. -/
theorem C10_execute_frame_witness :
    stAExec.agentCount = stA.agentCount ∧
    stAExec.userAgents = stA.userAgents ∧
    (stAExec.agents 1).strategy.isActive = (stA.agents 1).strategy.isActive ∧
    (stAExec.agents 1).strategy.lastExecuted = envC.timestamp := by
  obtain ⟨-, h2, -, h4, -, -, -, -, -, -, -, -, -, -, -, -, h17, -, h19⟩ :=
    C10_execute_frame envC stA 1 pythGood stAExec rfl
  exact ⟨h4, h2, h17, h19⟩

/-- Post-state of a successful trigger execution: only the targeted agent's
`lastExecuted` is stamped with the call timestamp. -/
def execPost (env : Env) (st : RegistryState) (agentId : Nat) :
    RegistryState :=
  { st with
    agents := fun i =>
      if i = agentId then
        { st.agents agentId with
          strategy :=
            { (st.agents agentId).strategy with
              lastExecuted := env.timestamp } }
      else st.agents i }

/-- C7: with an existing, active agent and a fresh oracle reading, the
execution is blocked by the cooldown exactly when
`now < lastExecuted + cooldownPeriod` — equivalently, permitted exactly when
`now ≥ lastExecuted + cooldownPeriod` — and whenever the cooldown has
expired and the converted price meets the condition, the call succeeds and
stamps `lastExecuted := now`. -/
theorem C7_cooldown_exact (env : Env) (st : RegistryState) (agentId : Nat)
    (pyth : Nat → Option PythPrice) (p : PythPrice)
    (hex : (st.agents agentId).existsFlag = true)
    (hact : (st.agents agentId).strategy.isActive = true)
    (hp : pyth (st.agents agentId).strategy.priceFeedId = some p)
    (hpub : p.publishTime ≠ 0) :
    (checkAndExecuteTrigger env st agentId pyth =
        .error .CooldownNotExpired ↔
      env.timestamp < (st.agents agentId).strategy.lastExecuted +
        (st.agents agentId).strategy.cooldownPeriod) ∧
    (∀ cp, normalizePrice p.price p.expo = some cp →
      triggerMet (st.agents agentId).strategy cp = true →
      (st.agents agentId).strategy.lastExecuted +
        (st.agents agentId).strategy.cooldownPeriod ≤ env.timestamp →
      ∃ st', checkAndExecuteTrigger env st agentId pyth = .ok st' ∧
        (st'.agents agentId).strategy.lastExecuted = env.timestamp) := by
  have key : checkAndExecuteTrigger env st agentId pyth =
      (if env.timestamp < (st.agents agentId).strategy.lastExecuted +
          (st.agents agentId).strategy.cooldownPeriod then
        Except.error RegistryError.CooldownNotExpired
      else
        match normalizePrice p.price p.expo with
        | none => Except.error RegistryError.Overflow
        | some currentPrice =>
          if !(triggerMet (st.agents agentId).strategy currentPrice) then
            Except.error RegistryError.TriggerNotMet
          else
            Except.ok (execPost env st agentId)) := by
    unfold checkAndExecuteTrigger execPost
    dsimp only
    rw [hex, hact, hp]
    simp [hpub]
  constructor
  · rw [key]
    constructor
    · intro hcool
      by_contra hlt
      rw [if_neg hlt] at hcool
      repeat' split at hcool
      all_goals simp_all
    · intro hlt
      rw [if_pos hlt]
  · intro cp hnorm hmet hcool
    refine ⟨execPost env st agentId, ?_, by simp [execPost]⟩
    rw [key, if_neg (not_lt.mpr hcool), hnorm]
    simp [hmet]

/-- Call by the owner at timestamp 3699 = 100 + 3599, one second before the
cooldown of `agentA` (last executed 100, cooldown 3600) expires. -/
def envT3599 : Env :=
  { sender := 1, timestamp := 3699,
    keccakLabel := fun _ => 7, keccakNode := fun _ _ => 9 }

/-- Call by the owner at timestamp 3700 = 100 + 3600, exactly when the
cooldown of `agentA` expires. -/
def envT3600 : Env :=
  { sender := 1, timestamp := 3700,
    keccakLabel := fun _ => 7, keccakNode := fun _ _ => 9 }

/-- C7 witness: with `lastExecuted = 100` and `cooldownPeriod = 3600`, the
execution at `T + 3599` fails with `CooldownNotExpired` and at `T + 3600`
succeeds, stamping `lastExecuted = 3700`. -/
theorem C7_cooldown_exact_witness :
    checkAndExecuteTrigger envT3599 stA 1 pythGood =
      .error .CooldownNotExpired ∧
    ∃ st', checkAndExecuteTrigger envT3600 stA 1 pythGood = .ok st' ∧
      (st'.agents 1).strategy.lastExecuted = 3700 := by
  constructor
  · exact (C7_cooldown_exact envT3599 stA 1 pythGood
      { price := 300000000001, conf := 0, expo := 0, publishTime := 50 }
      rfl rfl rfl (by decide)).1.mpr (by decide)
  · exact (C7_cooldown_exact envT3600 stA 1 pythGood
      { price := 300000000001, conf := 0, expo := 0, publishTime := 50 }
      rfl rfl rfl (by decide)).2 300000000001 (by decide) (by decide)
      (by decide)

/-- Congruence of `checkTrigger` in the only four agent fields it reads:
the existence flag, the monitored feed id, the comparison direction and the
threshold. -/
theorem checkTrigger_congr (st st' : RegistryState) (agentId : Nat)
    (pyth : Nat → Option PythPrice)
    (hex : (st'.agents agentId).existsFlag = (st.agents agentId).existsFlag)
    (hfeed : (st'.agents agentId).strategy.priceFeedId =
      (st.agents agentId).strategy.priceFeedId)
    (habove : (st'.agents agentId).strategy.triggerAbove =
      (st.agents agentId).strategy.triggerAbove)
    (hprice : (st'.agents agentId).strategy.triggerPrice =
      (st.agents agentId).strategy.triggerPrice) :
    checkTrigger st' agentId pyth = checkTrigger st agentId pyth := by
  unfold checkTrigger triggerMet
  dsimp only
  rw [hex, hfeed, habove, hprice]

/-- Replacement of exactly the three execution-gate fields (`isActive`,
`lastExecuted`, `cooldownPeriod`) of the strategy of agent `agentId`. -/
def withGates (st : RegistryState) (agentId : Nat) (b : Bool) (l c : Nat) :
    RegistryState :=
  { st with agents := fun i =>
      if i = agentId then
        { st.agents i with strategy :=
            { (st.agents i).strategy with
                isActive := b, lastExecuted := l, cooldownPeriod := c } }
      else st.agents i }

/-- C6: `checkTrigger` performs only the price read, conversion and
condition test — its met/price result is invariant under arbitrary changes
of the agent's `isActive`, `lastExecuted` and `cooldownPeriod` fields
(first conjunct); in particular it reports `met = true` for the deactivated
variant of agent 1 of `stA` (second conjunct). Being declared `view`, the
function cannot mutate storage, which the embedding reflects by returning
no post-state. -/
theorem C6_checkTrigger_ignores_gates :
    (∀ st agentId pyth b l c,
        checkTrigger (withGates st agentId b l c) agentId pyth =
          checkTrigger st agentId pyth) ∧
    checkTrigger (withGates stA 1 false 0 0) 1 pythGood =
      .ok (true, 300000000001) := by
  constructor
  · intro st agentId pyth b l c
    apply checkTrigger_congr <;> simp [withGates]
  · rfl

/-- One successful mutating transaction of the contract, restricted to
never reactivate agent `id0`: an `updateStrategy` call targeting `id0` must
supply a strategy with `isActive = false`; every other call is
unrestricted. The view functions mutate nothing and need no step. -/
inductive StepAvoiding (id0 : Nat) : RegistryState → RegistryState → Prop
  | create (env : Env) (st : RegistryState) (agentId : Nat)
      (ensLabel : String) (s : TradingStrategy) (n : Nat)
      (st' : RegistryState)
      (h : createAgent env st agentId ensLabel s = .ok (n, st')) :
      StepAvoiding id0 st st'
  | update (env : Env) (st : RegistryState) (agentId : Nat)
      (s : TradingStrategy) (st' : RegistryState)
      (h : updateStrategy env st agentId s = .ok st')
      (havoid : agentId = id0 → s.isActive = false) :
      StepAvoiding id0 st st'
  | deact (env : Env) (st : RegistryState) (agentId : Nat)
      (st' : RegistryState)
      (h : deactivateAgent env st agentId = .ok st') :
      StepAvoiding id0 st st'
  | exec (env : Env) (st : RegistryState) (agentId : Nat)
      (pyth : Nat → Option PythPrice) (st' : RegistryState)
      (h : checkAndExecuteTrigger env st agentId pyth = .ok st') :
      StepAvoiding id0 st st'

/-- A single non-reactivating step preserves the property "agent `id0`
exists and its strategy is inactive". -/
theorem stepAvoiding_preserves {id0 : Nat} {st st' : RegistryState}
    (hstep : StepAvoiding id0 st st')
    (hex : (st.agents id0).existsFlag = true)
    (hin : (st.agents id0).strategy.isActive = false) :
    (st'.agents id0).existsFlag = true ∧
    (st'.agents id0).strategy.isActive = false := by
  cases hstep with
  | create env st1 agentId ensLabel s n st2 h =>
    unfold createAgent at h
    repeat' split at h
    all_goals try exact Except.noConfusion h
    rw [Except.ok.injEq, Prod.mk.injEq] at h
    obtain ⟨-, rfl⟩ := h
    by_cases hid : id0 = agentId
    · subst hid; simp_all
    · simp [hid, hex, hin]
  | update env st1 agentId s st2 h havoid =>
    unfold updateStrategy at h
    dsimp only at h
    repeat' split at h
    all_goals try exact Except.noConfusion h
    rw [Except.ok.injEq] at h
    subst h
    by_cases hid : id0 = agentId
    · subst hid
      exact ⟨by simp [hex], by simp [havoid rfl]⟩
    · simp [hid, hex, hin]
  | deact env st1 agentId st2 h =>
    unfold deactivateAgent at h
    dsimp only at h
    repeat' split at h
    all_goals try exact Except.noConfusion h
    rw [Except.ok.injEq] at h
    subst h
    by_cases hid : id0 = agentId
    · subst hid
      exact ⟨by simp [hex], by simp⟩
    · simp [hid, hex, hin]
  | exec env st1 agentId pyth st2 h =>
    unfold checkAndExecuteTrigger at h
    dsimp only at h
    repeat' split at h
    all_goals try exact Except.noConfusion h
    rw [Except.ok.injEq] at h
    subst h
    by_cases hid : id0 = agentId
    · subst hid
      exact ⟨by simp [hex], by simp [hin]⟩
    · simp [hid, hex, hin]

/-- Any chain of non-reactivating steps preserves the property "agent
`id0` exists and its strategy is inactive". -/
theorem reachAvoiding_preserves {id0 : Nat} {st1 st2 : RegistryState}
    (hreach : Relation.ReflTransGen (StepAvoiding id0) st1 st2)
    (hex : (st1.agents id0).existsFlag = true)
    (hin : (st1.agents id0).strategy.isActive = false) :
    (st2.agents id0).existsFlag = true ∧
    (st2.agents id0).strategy.isActive = false := by
  induction hreach with
  | refl => exact ⟨hex, hin⟩
  | tail hab hstep ih => exact stepAvoiding_preserves hstep ih.1 ih.2

/-- C5 (amended): once `deactivateAgent` has succeeded for an agent, every
later `checkAndExecuteTrigger` call for it fails with the "Strategy not
active" revert, regardless of price and timestamp, in every state reachable
through operations that do not set its `isActive` back to `true`. The
original claim's "in every reachable state, since no reactivation operation
exists" fails: there is no dedicated reactivation operation, but an owner
`updateStrategy` call supplying a strategy with `isActive = true` (accepted
by validation, which does not inspect that field) does reactivate the agent
(see the counterexample). -/
theorem C5_deactivated_blocks_execution (env env2 : Env)
    (st st1 st2 : RegistryState) (id0 : Nat)
    (pyth : Nat → Option PythPrice)
    (hdeact : deactivateAgent env st id0 = .ok st1)
    (hreach : Relation.ReflTransGen (StepAvoiding id0) st1 st2) :
    checkAndExecuteTrigger env2 st2 id0 pyth =
      .error .StrategyNotActive := by
  have hbase : (st1.agents id0).existsFlag = true ∧
      (st1.agents id0).strategy.isActive = false := by
    unfold deactivateAgent at hdeact
    dsimp only at hdeact
    repeat' split at hdeact
    all_goals try exact Except.noConfusion hdeact
    rw [Except.ok.injEq] at hdeact
    subst hdeact
    constructor <;> simp_all
  obtain ⟨hex2, hin2⟩ :=
    reachAvoiding_preserves hreach hbase.1 hbase.2
  simp [checkAndExecuteTrigger, hex2, hin2]

/-- Store obtained from `stA` by deactivating agent 1. -/
def stDeact : RegistryState :=
  { stA with agents := fun i =>
      if i = 1 then
        { agentA with strategy := { strategyA with isActive := false } }
      else stA.agents i }

/-- C5 witness: agent 1 deactivated by its owner; the empty chain of
further steps; the execution attempt at timestamp 5000 with a price that
meets the condition fails with the inactivity revert. -/
theorem C5_deactivated_blocks_execution_witness :
    deactivateAgent envA stA 1 = .ok stDeact ∧
    checkAndExecuteTrigger envC stDeact 1 pythGood =
      .error .StrategyNotActive :=
  ⟨rfl, C5_deactivated_blocks_execution envA envC stA stDeact stDeact 1
    pythGood rfl Relation.ReflTransGen.refl⟩

/-- C5 (counterexample): deactivation is not permanent across all reachable
states. After `deactivateAgent`, the owner calls `updateStrategy` with a
strategy whose `isActive` field is `true` — validation accepts it — and a
subsequent `checkAndExecuteTrigger` succeeds, stamping
`lastExecuted = 5000` on the again-active agent. -/
theorem C5_counterexample :
    (Except.bind (Except.bind (deactivateAgent envA stA 1)
        (fun st => updateStrategy envA st 1 strategyA))
      (fun st => Except.map
        (fun st' => ((st'.agents 1).strategy.lastExecuted,
          (st'.agents 1).strategy.isActive))
        (checkAndExecuteTrigger envC st 1 pythGood))) =
      .ok (5000, true) := rfl

end Registry
